import Mathlib

/-!
Verification development for the Multi-Agent-Conversational-Search browser UI
(src/ui/script.js together with the index.html page of src/unnamed/part_000).

The JS file holds two scripts: a module-level one (element bindings, the
handleSearch and handleSearchInput handlers, the display helpers) and a
DOMContentLoaded-scoped one (performSearch and the example-search handlers).
Both are embedded below.

Modelling conventions:
  - The DOM is a total map from element id to an element state (class list,
    innerHTML, textContent); which ids exist on the page is the static list
    taken from index.html, and document.getElementById is a lookup into it
    returning an Option.
  - A DOM-mutating statement that can throw (a property write through a null
    element reference) is modelled as Dom -> Dom x Option String, the second
    component being the thrown error message (none = no exception).  Partial
    mutations before a throw are kept, as in JS.
  - JS numbers that the UI only formats (price, rating) are modelled as
    integers; Number.toFixed on an integral value is digits followed by a
    decimal part of zeros.
  - fetch outcomes are a three-way sum: resolved ok, resolved with
    response.ok = false (carrying statusText and the response body), or
    rejected (network error message).
-/

namespace UI

/-! The element state and the DOM. -/

structure Elem where
  classes : List String
  innerHTML : String
  textContent : String
deriving Repr, DecidableEq

def Dom : Type := String → Elem

def domUpdate (d : Dom) (i : String) (f : Elem → Elem) : Dom :=
  fun j => if j = i then f (d j) else d j

/-- Element ids present in index.html (src/unnamed/part_000); there is no
element with id aiResponse on the page. -/
def domIds : List String :=
  ["searchInput", "searchButton", "suggestions", "suggestionsList",
   "loading", "results", "productResults", "error", "errorMessage"]

/-- document.getElementById over the static page: some id when the page has
an element with that id, none (null) otherwise. -/
def getElementById (id : String) : Option String :=
  if id ∈ domIds then some id else none

/-- Message of the TypeError raised by a property write through null. -/
def nullDeref : String := "TypeError: Cannot set properties of null"

def removeClass (c : String) (e : Elem) : Elem :=
  { e with classes := e.classes.filter (· ≠ c) }

def addClass (c : String) (e : Elem) : Elem :=
  if c ∈ e.classes then e else { e with classes := e.classes ++ [c] }

def setHTML (h : String) (e : Elem) : Elem := { e with innerHTML := h }

def setText (t : String) (e : Elem) : Elem := { e with textContent := t }

/-- A DOM statement: the updated DOM plus a thrown error, if any. -/
def DomM : Type := Dom → Dom × Option String

/-- Sequencing of two DOM statements; the second runs only when the first did
not throw. -/
def dseq (a b : DomM) : DomM := fun d =>
  match a d with
  | (d, none) => b d
  | (d, some e) => (d, some e)

/-- A single property update through a getElementById reference: throws the
null TypeError when the element is absent. -/
def refSet (id : String) (f : Elem → Elem) : DomM := fun d =>
  match getElementById id with
  | none => (d, some nullDeref)
  | some i => (domUpdate d i f, none)

/-! JS helpers. -/

/-- The whitespace characters String.prototype.trim strips (the ASCII subset
of the JS WhiteSpace and LineTerminator sets; the Unicode space characters
are not modelled). -/
def isJsWhitespace (c : Char) : Bool :=
  c = ' ' || c = '\t' || c = '\n' || c = '\r' || c = '\x0b' || c = '\x0c'

/-- String.prototype.trim: strip leading and trailing whitespace. -/
def jsTrim (s : String) : String :=
  String.mk (((s.toList.dropWhile isJsWhitespace).reverse.dropWhile isJsWhitespace).reverse)

/-- JS s || dflt for strings: the empty string is falsy. -/
def jsOrStr (s : String) (dflt : String) : String :=
  if s = "" then dflt else s

/-- JS v || dflt where v may be undefined (none) or a string. -/
def jsOrOptStr (v : Option String) (dflt : String) : String :=
  match v with
  | none => dflt
  | some s => jsOrStr s dflt

/-- Number.toFixed(2) for the integer-modelled prices. -/
def toFixed2 (n : Int) : String := toString n ++ ".00"

/-- Number.toFixed(1) for the integer-modelled ratings. -/
def toFixed1 (n : Int) : String := toString n ++ ".0"

/-! Request bodies.  The UI sends three JSON body shapes to /api/search; a
body is a record of the five contract fields, each optional, a field being
absent from the JSON exactly when it is none. -/

structure RequestBody where
  query : Option String
  user_id : Option String
  filters : Option (List (String × String))
  context : Option (List (String × String))
  generate_suggestions : Option Bool
deriving Repr, DecidableEq

/-- The field names present in a body, in the contract order. -/
def RequestBody.fieldNames (b : RequestBody) : List String :=
  (if b.query.isSome then ["query"] else []) ++
  (if b.user_id.isSome then ["user_id"] else []) ++
  (if b.filters.isSome then ["filters"] else []) ++
  (if b.context.isSome then ["context"] else []) ++
  (if b.generate_suggestions.isSome then ["generate_suggestions"] else [])

/-- The inbound-request contract field names (spec section 6). -/
def contractFields : List String :=
  ["query", "user_id", "filters", "context", "generate_suggestions"]

/-- Body sent by handleSearch (script.js lines 45-50): query is the trimmed
input, user_id comes from getUserId, filters and context are empty objects.
none models the early return on an empty-after-trim input (line 33): no
request is issued. -/
def handleSearchBody (inputValue : String) (userId : String) : Option RequestBody :=
  let query := jsTrim inputValue
  if query = "" then none
  else some { query := some query, user_id := some userId,
              filters := some [], context := some [],
              generate_suggestions := none }

/-- Body sent by the debounced suggestion fetch (script.js lines 87-90):
query plus generate_suggestions true.  none models the early return when the
trimmed input is shorter than 2 (line 75): no timer, no request. -/
def suggestionRequestBody (inputValue : String) : Option RequestBody :=
  let query := jsTrim inputValue
  if query.length < 2 then none
  else some { query := some query, user_id := none, filters := none,
              context := none, generate_suggestions := some true }

/-- Body sent by performSearch (script.js line 279): the query alone, and
untrimmed.  none models the early return when the query is empty after
trimming (line 263). -/
def performSearchBody (query : String) : Option RequestBody :=
  if jsTrim query = "" then none
  else some { query := some query, user_id := none, filters := none,
              context := none, generate_suggestions := none }

/-! getUserId (script.js lines 209-216).  localStorage is modelled as the
Option String stored under the userId key; Math.random().toString(36) is
modelled by the stream of base-36 digits after the leading zero and dot of
the fractional expansion, so substr(2, 9) is the first nine of them. -/

def isBase36 (c : Char) : Prop := c.isDigit ∨ ('a' ≤ c ∧ c ≤ 'z')

instance (c : Char) : Decidable (isBase36 c) := by
  unfold isBase36; infer_instance

/-- getUserId: a null or empty stored value is falsy, so a fresh identifier
is generated and stored; otherwise the stored value is returned and storage
is untouched.  Returns (identifier, storage after the call). -/
def getUserId (store : Option String) (digits : List Char) : String × Option String :=
  let userId := store.getD ""
  if userId = "" then
    let fresh := "user_" ++ String.mk (digits.take 9)
    (fresh, some fresh)
  else (userId, store)

/-! formatAIResponse (script.js lines 173-179): three global replacements in
order, double-star to strong, single-star to em, newline to br.  The JS dot
does not match a newline and the groups are lazy, so a match is the shortest
star-delimited span containing no newline; positions with no such span are
left as-is and scanning resumes one character later. -/

/-- Shortest newline-free prefix ending just before a closing double star;
returns that prefix and the characters after the closing delimiter. -/
def findCloseSS : List Char → Option (List Char × List Char)
  | [] => none
  | [_] => none
  | c1 :: c2 :: rest =>
    if c1 = '\n' then none
    else if c1 = '*' ∧ c2 = '*' then some ([], rest)
    else (findCloseSS (c2 :: rest)).map (fun p => (c1 :: p.1, p.2))

theorem findCloseSS_length : ∀ l p, findCloseSS l = some p → p.2.length < l.length := by
  intro l
  induction l with
  | nil => intro p h; simp [findCloseSS] at h
  | cons c1 t ih =>
    cases t with
    | nil => intro p h; simp [findCloseSS] at h
    | cons c2 rest =>
      intro p h
      simp only [findCloseSS] at h
      split_ifs at h with h1 h2
      · cases h
        simp
        omega
      · match hq : findCloseSS (c2 :: rest) with
        | none => rw [hq] at h; simp at h
        | some q =>
          rw [hq] at h
          have hp : p = (c1 :: q.1, q.2) := by
            cases h; rfl
          subst hp
          have := ih q hq
          simp only [List.length_cons] at this ⊢
          omega

/-- The strong pass: each lazily matched double-star span becomes a strong
element; an unmatched double star stays and scanning moves on one char. -/
def scanSS (l : List Char) : List Char :=
  match l with
  | [] => []
  | [c] => [c]
  | c1 :: c2 :: rest =>
    if c1 = '*' ∧ c2 = '*' then
      match h : findCloseSS rest with
      | some p => ("<strong>".toList ++ p.1 ++ "</strong>".toList) ++ scanSS p.2
      | none => c1 :: scanSS (c2 :: rest)
    else c1 :: scanSS (c2 :: rest)
termination_by l.length
decreasing_by
  · have := findCloseSS_length rest _ h
    simp only [List.length_cons]
    omega
  · simp
  · simp

/-- Shortest newline-free prefix before a closing single star. -/
def findCloseS : List Char → Option (List Char × List Char)
  | [] => none
  | c :: rest =>
    if c = '\n' then none
    else if c = '*' then some ([], rest)
    else (findCloseS rest).map (fun p => (c :: p.1, p.2))

theorem findCloseS_length : ∀ l p, findCloseS l = some p → p.2.length < l.length := by
  intro l
  induction l with
  | nil => intro p h; simp [findCloseS] at h
  | cons c rest ih =>
    intro p h
    simp only [findCloseS] at h
    split_ifs at h with h1 h2
    · cases h
      simp
    · match hq : findCloseS rest with
      | none => rw [hq] at h; simp at h
      | some q =>
        rw [hq] at h
        have hp : p = (c :: q.1, q.2) := by
          cases h; rfl
        subst hp
        have := ih q hq
        simp only [List.length_cons] at this ⊢
        omega

/-- The em pass over the output of the strong pass. -/
def scanS (l : List Char) : List Char :=
  match l with
  | [] => []
  | c :: rest =>
    if c = '*' then
      match h : findCloseS rest with
      | some p => ("<em>".toList ++ p.1 ++ "</em>".toList) ++ scanS p.2
      | none => c :: scanS rest
    else c :: scanS rest
termination_by l.length
decreasing_by
  · have := findCloseS_length rest _ h
    simp only [List.length_cons]
    omega
  · simp
  · simp

/-- formatAIResponse: strong pass, em pass, then newline to br. -/
def formatAIResponse (response : String) : String :=
  (String.mk (scanS (scanSS response.toList))).replace "\n" "<br>"

/-! Products and the two renderers. -/

/-- A product as the renderers see it.  id, name, description, category are
the contract strings; price and rating are integer-modelled numbers that may
be absent (undefined); attributes is an optional map; reviews_count an
optional count.  rating and reviews_count are OUTSIDE the outbound response
contract but are read by the performSearch renderer. -/
structure Product where
  id : String
  name : String
  description : String
  price : Option Int
  category : String
  attributes : Option (List (String × String))
  rating : Option Int
  reviews_count : Option Nat
deriving Repr, DecidableEq

/-- Message of the TypeError raised by reading a property of undefined. -/
def undefinedRead : String := "TypeError: Cannot read properties of undefined"

/-- The base64 placeholder image constant of createProductCard. -/
def placeholderImage : String := "data:image/svg+xml;base64,PHN2ZyB3aWR0aD0iMjAwIiBoZWlnaHQ9IjIwMCIgeG1sbnM9Imh0dHA6Ly93d3cudzMub3JnLzIwMDAvc3ZnIj48cmVjdCB3aWR0aD0iMjAwIiBoZWlnaHQ9IjIwMCIgZmlsbD0iIzRBNTU2OCIvPjxwYXRoIGQ9Ik04NSA2NUgxMTVWMTM1SDg1VjY1WiIgZmlsbD0iI0EwQUVDMCIvPjwvc3ZnPg=="

/-- product.attributes?.image_url of script.js line 142. -/
def productImageUrl (product : Product) : Option String :=
  match product.attributes with
  | none => none
  | some m => m.lookup "image_url"

/-- The explanation block of createProductCard (lines 153-160); empty when
explanation is undefined or empty (JS truthiness). -/
def explanationBlock (explanation : Option String) : String :=
  match explanation with
  | none => ""
  | some e =>
    if e = "" then ""
    else
      "\n                <div class=\"mt-2 text-sm text-blue-400\">\n                    <svg class=\"inline w-4 h-4 mr-1\" fill=\"currentColor\" viewBox=\"0 0 20 20\">\n                        <path d=\"M11 3a1 1 0 10-2 0v1a1 1 0 102 0V3zM15.657 5.757a1 1 0 00-1.414-1.414l-.707.707a1 1 0 001.414 1.414l.707-.707zM18 10a1 1 0 01-1 1h-1a1 1 0 110-2h1a1 1 0 011 1zM5.05 6.464A1 1 0 106.464 5.05l-.707-.707a1 1 0 00-1.414 1.414l.707.707zM5 10a1 1 0 01-1 1H3a1 1 0 110-2h1a1 1 0 011 1zM8 16v-1h4v1a2 2 0 11-4 0zM12 14c.015-.34.208-.646.477-.859a4 4 0 10-4.954 0c.27.213.462.519.477.859h4z\"/>\n                    </svg>\n                    " ++ e ++ "\n                </div>\n            "

/-- createProductCard (script.js lines 133-163).  The argument is the result
record it destructures: the product plus the (optional) explanation; the two
score fields are destructured but never used.  Throws when price is
undefined (price.toFixed on undefined). -/
def createProductCard (result : Product × Option String) : Except String String :=
  let product := result.1
  let explanation := result.2
  match product.price with
  | none => .error undefinedRead
  | some price =>
    .ok ("\n        <div class=\"product-card p-4 rounded-lg shadow-md hover:shadow-lg transition-all\">\n            <div class=\"aspect-w-16 aspect-h-9 mb-4\">\n                <img src=\"" ++ jsOrOptStr (productImageUrl product) placeholderImage ++ "\"\n                     alt=\"" ++ product.name ++ "\"\n                     class=\"object-cover rounded-md w-full h-48\"\n                     onerror=\"this.onerror=null; this.src=\x27" ++ placeholderImage ++ "\x27;\">\n            </div>\n            <h3 class=\"font-semibold text-lg mb-2 text-gray-100\">" ++ product.name ++ "</h3>\n            <p class=\"text-gray-400 text-sm mb-2\">" ++ product.description ++ "</p>\n            <div class=\"flex justify-between items-center mb-2\">\n                <span class=\"price-tag\">" ++ toFixed2 price ++ "</span>\n                <span class=\"text-sm text-gray-500\">" ++ product.category ++ "</span>\n            </div>\n            " ++ explanationBlock explanation ++ "\n        </div>\n    ")

/-- createSuggestionTag (script.js lines 165-171). -/
def createSuggestionTag (suggestion : String) : String :=
  "\n        <button class=\"suggestion-tag\" onclick=\"applySuggestion(\x27" ++ suggestion ++ "\x27)\">\n            " ++ suggestion ++ "\n        </button>\n    "

/-- The rating block of the performSearch renderer (script.js lines
309-314).  Math.round on an integer-modelled rating is the identity; ratings
are assumed in 0..5 (outside it the JS string repeat would throw a
RangeError, which the model truncates instead). -/
def ratingBlock (rating : Option Int) : String :=
  match rating with
  | none => ""
  | some r =>
    "\n                                <span class=\"flex items-center text-yellow-500\">\n                                    " ++
    String.mk (List.replicate r.toNat '★') ++
    String.mk (List.replicate (5 - r.toNat) '☆') ++
    "\n                                    <span class=\"ml-1 text-gray-600\">(" ++ toFixed1 r ++ ")</span>\n                                </span>\n                            "

/-- The reviews block of the performSearch renderer (lines 315-317); a zero
count is falsy and renders nothing. -/
def reviewsBlock (reviews_count : Option Nat) : String :=
  match reviews_count with
  | none => ""
  | some n =>
    if n = 0 then ""
    else
      "\n                                <span class=\"ml-2 text-gray-500\">" ++ toString n ++ " reviews</span>\n                            "

/-- The price text of the performSearch renderer (line 300). -/
def performPriceText (price : Option Int) : String :=
  match price with
  | some p => "$" ++ toFixed2 p
  | none => "Price not available"

/-- The per-product card of performSearch (script.js lines 295-320). -/
def renderPerformProduct (product : Product) : String :=
  "\n                    <div class=\"product-card p-4 border rounded-lg hover:shadow-lg transition-shadow\">\n                        <div class=\"flex justify-between items-start mb-3\">\n                            <h3 class=\"font-semibold text-lg text-gray-900\">" ++
  jsOrStr product.name "Unnamed Product" ++
  "</h3>\n                            <span class=\"text-lg font-bold text-blue-600\">\n                                " ++
  performPriceText product.price ++
  "\n                            </span>\n                        </div>\n\n                        <div class=\"mt-2\">\n                            <p class=\"text-sm text-gray-600\">" ++
  jsOrStr product.description "No description available" ++
  "</p>\n                        </div>\n\n                        <div class=\"mt-3 flex items-center\">\n                            " ++
  ratingBlock product.rating ++
  "\n                            " ++
  reviewsBlock product.reviews_count ++
  "\n                        </div>\n                    </div>\n                "

/-- A parsed /api/search response body; optional fields model absence. -/
structure SearchData where
  products : Option (List Product)
  ai_response : Option String
  suggestions : Option (List String)
deriving Repr

/-- Outcome of a fetch: resolved with response.ok, resolved with a non-ok
status (statusText and response body), or rejected with a network error. -/
inductive FetchOutcome where
  | ok (data : SearchData)
  | httpError (statusText : String) (body : String)
  | networkError (message : String)

/-! The display and utility functions of the module-level script. -/

/-- showLoading (lines 182-185). -/
def showLoading : DomM :=
  dseq (refSet "loading" (removeClass "hidden")) (refSet "results" (addClass "hidden"))

/-- hideLoading (lines 187-189). -/
def hideLoading : DomM := refSet "loading" (addClass "hidden")

/-- showError (lines 191-194). -/
def showError (message : String) : DomM :=
  dseq (refSet "error" (removeClass "hidden"))
       (refSet "errorMessage" (setText message))

/-- hideError (lines 196-198). -/
def hideError : DomM := refSet "error" (addClass "hidden")

/-- hideSuggestions (lines 200-202). -/
def hideSuggestions : DomM := refSet "suggestions" (addClass "hidden")

/-- The product cards of displayResults (lines 116-118): each product is
wrapped as a result record whose only field is the product, so explanation
is undefined; a throw in any card aborts the whole map. -/
def renderCards (products : List Product) : Except String String :=
  (products.mapM (fun product => createProductCard (product, none))).map String.join

/-- displayResults (lines 107-119): unhide and animate the results
container, write the formatted ai_response into the aiResponse element, then
write the product cards.  The aiResponse binding is
document.getElementById of a nonexistent id, so the innerHTML write there
throws; mutations already performed are kept. -/
def displayResults (data : SearchData) : DomM :=
  dseq (refSet "results" (removeClass "hidden"))
  (dseq (refSet "results" (addClass "animate-fade-in"))
   (fun d =>
     match getElementById "aiResponse" with
     | none => (d, some nullDeref)
     | some i =>
       let d := domUpdate d i
         (setHTML (formatAIResponse (jsOrOptStr data.ai_response "No response available.")))
       match renderCards ((data.products).getD []) with
       | .error e => (d, some e)
       | .ok html =>
         match getElementById "productResults" with
         | none => (d, some nullDeref)
         | some p => (domUpdate d p (setHTML html), none)))

/-- displaySuggestions (lines 121-131).  The parameter is named
suggestionsList in the source and shadows the module-level element binding
of the same name, so the innerHTML assignment on the non-empty branch sets a
property on the array argument and touches no element; the DOM effect of
that branch is only the unhiding of the suggestions container.  The string
the assignment computes is returned as the second component (the value the
array property receives). -/
def displaySuggestions (suggestionsList : List String) (d : Dom) :
    (Dom × Option String) × Option String :=
  if suggestionsList.length = 0 then (hideSuggestions d, none)
  else
    match refSet "suggestions" (removeClass "hidden") d with
    | (d, some e) => ((d, some e), none)
    | (d, none) =>
      ((d, none), some (String.join (suggestionsList.map createSuggestionTag)))

/-- handleSearch (lines 31-65) given the input value, the user id the body
uses, and the fetch outcome.  Empty-after-trim input returns before any
effect.  showLoading and hideError run before the try block (a throw there
would be uncaught); inside the try, a non-ok response raises the Error with
the fixed message Search request failed, a network failure raises its own
message, and an ok response runs displayResults; the catch shows
err.message; the finally hides the loading element. -/
def handleSearch (inputValue : String) (outcome : FetchOutcome) : DomM := fun d =>
  let query := jsTrim inputValue
  if query = "" then (d, none)
  else
    match dseq showLoading hideError d with
    | (d, some e) => (d, some e)
    | (d1, none) =>
      let tryResult : Dom × Option String :=
        match outcome with
        | .networkError msg => (d1, some msg)
        | .httpError _ _ => (d1, some "Search request failed")
        | .ok data => displayResults data d1
      match tryResult with
      | (d2, none) => hideLoading d2
      | (d2, some msg) =>
        match showError msg d2 with
        | (d3, none) => hideLoading d3
        | (d3, some e) =>
          match hideLoading d3 with
          | (d4, _) => (d4, some e)

structure UIState where
  searchTimeout : Option Nat
  pendingTimers : List (Nat × String)
  suggInFlight : List (Nat × String)
  mainInFlight : List (Nat × String)
  nextId : Nat
deriving Repr, DecidableEq

/-- clearTimeout on timer id t: cancels t when it is still pending, and is a
no-op otherwise.  Returns the state and the list of timers cancelled. -/
def clearTimeoutOp (t : Nat) (s : UIState) : UIState × List Nat :=
  if s.pendingTimers.any (fun p => p.1 = t) then
    ({ s with pendingTimers := s.pendingTimers.filter (fun p => p.1 ≠ t) }, [t])
  else (s, [])

/-- handleSearchInput (lines 68-104): clearTimeout on the stored timer id
when one is stored; below two trimmed characters no new timer is armed
(hideSuggestions is a DOM effect modelled by displaySuggestions and
hideSuggestions above); otherwise a fresh debounce timer carrying the
trimmed query is armed and its id stored.  Returns the state and the timers
cancelled. -/
def handleSearchInput (value : String) (s : UIState) : UIState × List Nat :=
  let query := jsTrim value
  let cleared :=
    match s.searchTimeout with
    | some t => clearTimeoutOp t s
    | none => (s, [])
  if query.length < 2 then cleared
  else
    ({ cleared.1 with searchTimeout := some cleared.1.nextId,
                      pendingTimers := cleared.1.pendingTimers ++ [(cleared.1.nextId, query)],
                      nextId := cleared.1.nextId + 1 }, cleared.2)

/-- The oldest pending debounce timer fires: its callback starts the
suggestion fetch for the query it captured (lines 80-103). -/
def fireTimer (s : UIState) : UIState :=
  match s.pendingTimers with
  | [] => s
  | (t, q) :: rest =>
    { s with pendingTimers := rest, suggInFlight := s.suggInFlight ++ [(t, q)] }

/-- A suggestion fetch completes (resolves or rejects). -/
def suggestionDone (s : UIState) : UIState :=
  { s with suggInFlight := s.suggInFlight.drop 1 }

/-- handleSearch starts a main fetch unless the trimmed input is empty. -/
def mainSearchStart (value : String) (s : UIState) : UIState :=
  if jsTrim value = "" then s
  else { s with mainInFlight := s.mainInFlight ++ [(s.nextId, jsTrim value)],
                nextId := s.nextId + 1 }

/-- A main fetch completes. -/
def mainDone (s : UIState) : UIState :=
  { s with mainInFlight := s.mainInFlight.drop 1 }

/-- The observable events of the page: input events on the search box, the
debounce timer firing, fetch completions, and a main search start. -/
inductive UIEvent where
  | input (value : String)
  | timerFire
  | suggResponse
  | mainSearch (value : String)
  | mainResponse

/-- One event step; the second component lists the timers cancelled by the
step (only an input event ever cancels one). -/
def stepUI : UIEvent → UIState → UIState × List Nat
  | .input v, s => handleSearchInput v s
  | .timerFire, s => (fireTimer s, [])
  | .suggResponse, s => (suggestionDone s, [])
  | .mainSearch v, s => (mainSearchStart v s, [])
  | .mainResponse, s => (mainDone s, [])

/-- Run a sequence of events. -/
def runUI (events : List UIEvent) (s : UIState) : UIState :=
  events.foldl (fun s e => (stepUI e s).1) s

/-- The page before any interaction. -/
def initUIState : UIState := ⟨none, [], [], [], 0⟩

/-- A suggestion computation is active when a debounce timer is pending or a
suggestion fetch is in flight. -/
def activeSuggestionComputations (s : UIState) : Nat :=
  s.pendingTimers.length + s.suggInFlight.length

/-! Helper lemmas about the DOM model. -/

/-- A DOM with every element empty, used to instantiate universally
quantified statements at a concrete page state. -/
def emptyDom : Dom := fun _ => ⟨[], "", ""⟩

theorem domUpdate_apply_ne {d : Dom} {i : String} {f : Elem → Elem} {j : String}
    (h : j ≠ i) : domUpdate d i f j = d j := by
  simp [domUpdate, h]

theorem domUpdate_apply_self (d : Dom) (i : String) (f : Elem → Elem) :
    domUpdate d i f i = f (d i) := by
  simp [domUpdate]

theorem getElementById_aiResponse : getElementById "aiResponse" = none := rfl

theorem refSet_resolved (id : String) (f : Elem → Elem) (d : Dom)
    (h : getElementById id = some id) :
    refSet id f d = (domUpdate d id f, none) := by
  simp [refSet, h]

theorem mem_removeClass_self (c : String) (e : Elem) :
    c ∉ (removeClass c e).classes := by
  simp [removeClass]

/-! Helper lemmas about the scheduler. -/

theorem clearTimeoutOp_fields (t : Nat) (s : UIState) :
    (clearTimeoutOp t s).1.mainInFlight = s.mainInFlight ∧
    (clearTimeoutOp t s).1.suggInFlight = s.suggInFlight ∧
    (clearTimeoutOp t s).1.searchTimeout = s.searchTimeout ∧
    (clearTimeoutOp t s).1.nextId = s.nextId ∧
    (∀ x ∈ (clearTimeoutOp t s).2, x = t) := by
  unfold clearTimeoutOp
  split <;> simp

/-- The timer invariant: at most one debounce timer pends, and when one
does, its id is the one stored in the searchTimeout variable. -/
def timerInvariant (s : UIState) : Prop :=
  match s.pendingTimers with
  | [] => True
  | [(t, _)] => s.searchTimeout = some t
  | _ => False

theorem timerInvariant_congr (s s' : UIState)
    (hp : s'.pendingTimers = s.pendingTimers)
    (hst : s'.searchTimeout = s.searchTimeout)
    (h : timerInvariant s) : timerInvariant s' := by
  unfold timerInvariant at h ⊢
  rw [hp, hst]
  exact h

theorem timerInvariant_length (s : UIState) (h : timerInvariant s) :
    s.pendingTimers.length ≤ 1 := by
  obtain ⟨st, pend, sf, mf, n⟩ := s
  match pend, h with
  | [], _ => simp
  | [(t, q)], _ => simp
  | a :: b :: c, hh => exact absurd hh (by simp [timerInvariant])

theorem handleSearchInput_eq_none (v : String) (s : UIState)
    (h : s.searchTimeout = none) :
    handleSearchInput v s =
      if (jsTrim v).length < 2 then (s, [])
      else ({ s with
                searchTimeout := some s.nextId,
                pendingTimers := s.pendingTimers ++ [(s.nextId, jsTrim v)],
                nextId := s.nextId + 1 }, []) := by
  unfold handleSearchInput
  rw [h]

theorem handleSearchInput_eq_some (v : String) (s : UIState) (t : Nat)
    (h : s.searchTimeout = some t) :
    handleSearchInput v s =
      if (jsTrim v).length < 2 then clearTimeoutOp t s
      else ({ (clearTimeoutOp t s).1 with
              searchTimeout := some (clearTimeoutOp t s).1.nextId,
              pendingTimers := (clearTimeoutOp t s).1.pendingTimers ++
                [((clearTimeoutOp t s).1.nextId, jsTrim v)],
              nextId := (clearTimeoutOp t s).1.nextId + 1 }, (clearTimeoutOp t s).2) := by
  unfold handleSearchInput
  rw [h]

theorem handleSearchInput_timerInvariant (v : String) (s : UIState)
    (h : timerInvariant s) : timerInvariant (handleSearchInput v s).1 := by
  obtain ⟨st, pend, sf, mf, n⟩ := s
  cases st with
  | none =>
    rw [handleSearchInput_eq_none v _ rfl]
    match pend, h with
    | [], _ => split_ifs <;> simp [timerInvariant]
    | [(t, q)], hh => exact absurd hh (by simp [timerInvariant])
    | a :: b :: c, hh => exact absurd hh (by simp [timerInvariant])
  | some t =>
    rw [handleSearchInput_eq_some v _ t rfl]
    match pend, h with
    | [], _ =>
      simp only [clearTimeoutOp]
      split_ifs <;> simp_all [timerInvariant]
    | [(t0, q)], hh =>
      have hh2 : (some t : Option Nat) = some t0 := hh
      have ht : t0 = t := (Option.some.inj hh2).symm
      subst ht
      simp only [clearTimeoutOp]
      split_ifs <;> simp_all [timerInvariant]
    | a :: b :: c, hh => exact absurd hh (by simp [timerInvariant])

theorem fireTimer_timerInvariant (s : UIState) (h : timerInvariant s) :
    timerInvariant (fireTimer s) := by
  obtain ⟨st, pend, sf, mf, n⟩ := s
  match pend, h with
  | [], hh => exact hh
  | [(t, q)], _ => simp [fireTimer, timerInvariant]
  | a :: b :: c, hh => exact absurd hh (by simp [timerInvariant])

theorem mainSearchStart_fields (v : String) (s : UIState) :
    (mainSearchStart v s).pendingTimers = s.pendingTimers ∧
    (mainSearchStart v s).searchTimeout = s.searchTimeout := by
  unfold mainSearchStart
  split <;> simp

theorem stepUI_timerInvariant (e : UIEvent) (s : UIState)
    (h : timerInvariant s) : timerInvariant (stepUI e s).1 := by
  cases e with
  | input v => exact handleSearchInput_timerInvariant v s h
  | timerFire => exact fireTimer_timerInvariant s h
  | suggResponse => exact timerInvariant_congr s _ rfl rfl h
  | mainSearch v =>
    exact timerInvariant_congr s _ (mainSearchStart_fields v s).1
      (mainSearchStart_fields v s).2 h
  | mainResponse => exact timerInvariant_congr s _ rfl rfl h

theorem runUI_timerInvariant (events : List UIEvent) (s : UIState)
    (h : timerInvariant s) : timerInvariant (runUI events s) := by
  induction events generalizing s with
  | nil => exact h
  | cons e rest ih => exact ih _ (stepUI_timerInvariant e s h)

/-! Products used to exhibit field dependence of the renderers, and the
equality of the outbound-contract product fields. -/

def productA : Product :=
  ⟨"p1", "ProBook 15", "A fast laptop", some 1999, "laptops", none, none, none⟩

def productB : Product := { productA with rating := some 4, reviews_count := some 12 }

/-- Two products agree on every field of the outbound response contract
(id, name, description, price, category, attributes). -/
def productContractEq (p q : Product) : Prop :=
  p.id = q.id ∧ p.name = q.name ∧ p.description = q.description ∧
  p.price = q.price ∧ p.category = q.category ∧ p.attributes = q.attributes

/-! The claims. -/

/-- C1: index.html has no element with id aiResponse, so the module-level
binding is null; displayResults therefore throws on every call at the
aiResponse innerHTML write, the catch branch of handleSearch runs, and the
error panel is shown (hidden class absent from the error element) even when
the fetch resolved ok, with no uncaught exception escaping handleSearch. -/
theorem C1_null_aiResponse_forces_error_panel :
    getElementById "aiResponse" = none ∧
    (∀ data d, (displayResults data d).2 = some nullDeref) ∧
    (∀ inputValue data d, jsTrim inputValue ≠ "" →
      "hidden" ∉ (((handleSearch inputValue (.ok data) d).1) "error").classes ∧
      (handleSearch inputValue (.ok data) d).2 = none) := by
  refine ⟨rfl, ?_, ?_⟩
  · intro data d
    simp [displayResults, dseq, refSet, getElementById, domIds]
  · intro inputValue data d h
    simp only [handleSearch, h, if_neg, dseq, showLoading, hideError, showError, hideLoading,
      displayResults, refSet, getElementById, domIds]
    simp [domUpdate, removeClass]

/-- C1 witness: a concrete successful response on the query laptop still
ends with the error panel visible. -/
theorem C1_null_aiResponse_forces_error_panel_witness :
    jsTrim "laptop" ≠ "" ∧
    ("hidden" ∉ (((handleSearch "laptop" (.ok ⟨none, none, none⟩) emptyDom).1) "error").classes ∧
     (handleSearch "laptop" (.ok ⟨none, none, none⟩) emptyDom).2 = none) :=
  ⟨by decide,
   C1_null_aiResponse_forces_error_panel.2.2 "laptop" ⟨none, none, none⟩ emptyDom (by decide)⟩

/-- C2: the suggestion path (input handler, debounce timer firing,
suggestion completion and rendering) never cancels or alters the main
search: each of its steps leaves the in-flight main request untouched, the
only timers an input step cancels are the one stored in the debounce
variable, and the suggestion rendering touches no element other than the
suggestions container. -/
theorem C2_suggestion_path_never_touches_main_search :
    (∀ v s, (handleSearchInput v s).1.mainInFlight = s.mainInFlight ∧
            (∀ t ∈ (handleSearchInput v s).2, s.searchTimeout = some t)) ∧
    (∀ s, (fireTimer s).mainInFlight = s.mainInFlight) ∧
    (∀ s, (suggestionDone s).mainInFlight = s.mainInFlight) ∧
    (∀ l d id, id ≠ "suggestions" → (displaySuggestions l d).1.1 id = d id) := by
  refine ⟨?_, ?_, ?_, ?_⟩
  · intro v s
    unfold handleSearchInput
    cases hst : s.searchTimeout with
    | none =>
      simp only [hst]
      constructor
      · split <;> simp
      · split <;> simp
    | some t =>
      simp only [hst]
      have hc := clearTimeoutOp_fields t s
      constructor
      · split
        · exact hc.1
        · simp [hc.1]
      · split
        · intro x hx
          simp [hc.2.2.2.2 x hx]
        · intro x hx
          simp [hc.2.2.2.2 x hx]
  · intro s
    unfold fireTimer
    split <;> simp
  · intro s
    simp [suggestionDone]
  · intro l d id hid
    unfold displaySuggestions hideSuggestions
    split
    · simp [refSet, getElementById, domIds, domUpdate_apply_ne hid]
    · simp [refSet, getElementById, domIds, domUpdate_apply_ne hid]

/-- C2 witness: a concrete input step leaves the main in-flight list as it
was, and a concrete suggestion rendering leaves the results element
untouched. -/
theorem C2_suggestion_path_never_touches_main_search_witness :
    (handleSearchInput "ab" initUIState).1.mainInFlight = initUIState.mainInFlight ∧
    (displaySuggestions ["phones"] emptyDom).1.1 "results" = emptyDom "results" :=
  ⟨(C2_suggestion_path_never_touches_main_search.1 "ab" initUIState).1,
   C2_suggestion_path_never_touches_main_search.2.2.2 ["phones"] emptyDom "results" (by decide)⟩

/-- C3 counterexample: after typing laptop, letting the debounce timer fire
(the suggestion fetch is then in flight) and typing laptops, two suggestion
computations are active at once, the pending timer for laptops and the
still-running fetch for laptop; the second keystroke cancelled nothing even
though a suggestion fetch was in flight.  This refutes the claim that a new
input event cancels any in-flight suggestion computation leaving at most
one active. -/
theorem C3_two_active_suggestion_computations :
    ¬ activeSuggestionComputations
        (runUI [.input "laptop", .timerFire, .input "laptops"] initUIState) ≤ 1 ∧
    (stepUI (.input "laptops") (runUI [.input "laptop", .timerFire] initUIState)).2 = [] ∧
    (runUI [.input "laptop", .timerFire] initUIState).suggInFlight ≠ [] := by
  refine ⟨by decide, by decide, by decide⟩

/-- C3 amended: a new input event cancels only the pending debounce timer
(so at most one debounce timer is ever pending), but an in-flight suggestion
fetch is never cancelled by a keystroke and may overlap a newly armed timer,
so more than one suggestion computation can be active at once. -/
theorem C3_amended_only_debounce_timer_cancelled :
    (∀ events, (runUI events initUIState).pendingTimers.length ≤ 1) ∧
    (∀ v s, (handleSearchInput v s).1.suggInFlight = s.suggInFlight) := by
  constructor
  · intro events
    exact timerInvariant_length _ (runUI_timerInvariant events initUIState trivial)
  · intro v s
    cases hst : s.searchTimeout with
    | none =>
      rw [handleSearchInput_eq_none v _ hst]
      split_ifs <;> simp
    | some t =>
      rw [handleSearchInput_eq_some v _ t hst]
      split_ifs
      · exact (clearTimeoutOp_fields t s).2.1
      · simp [(clearTimeoutOp_fields t s).2.1]

/-- C4: an input that is empty after trimming produces no request from
either main entry point (and none from the suggestion path either), so no
empty-after-trim query ever reaches the backend. -/
theorem C4_empty_query_never_sent :
    ∀ s u, jsTrim s = "" →
      handleSearchBody s u = none ∧ performSearchBody s = none ∧
      suggestionRequestBody s = none := by
  intro s u h
  refine ⟨?_, ?_, ?_⟩
  · simp [handleSearchBody, h]
  · simp [performSearchBody, h]
  · have : (jsTrim s).length < 2 := by rw [h]; decide
    simp [suggestionRequestBody, this]

/-- C4 witness: a whitespace-only input issues no request anywhere. -/
theorem C4_empty_query_never_sent_witness :
    jsTrim "   " = "" ∧
    (handleSearchBody "   " "u" = none ∧ performSearchBody "   " = none ∧
     suggestionRequestBody "   " = none) :=
  ⟨by decide, C4_empty_query_never_sent "   " "u" (by decide)⟩

/-- C5 counterexample: performSearch sends a body for the query laptop whose
context field is absent, not the empty object, refuting the claim that both
entry points send context unconditionally. -/
theorem C5_performSearch_sends_no_context :
    ∃ b, performSearchBody "laptop" = some b ∧ b.context ≠ some [] :=
  ⟨_, rfl, by decide⟩

/-- C5 amended: handleSearch sends context with the empty object
unconditionally, but performSearch sends only the query field, with no
context at all. -/
theorem C5_amended_context_only_in_handleSearch :
    (∀ s u b, handleSearchBody s u = some b → b.context = some []) ∧
    (∀ s b, performSearchBody s = some b →
      b.context = none ∧ b.fieldNames = ["query"]) := by
  constructor
  · intro s u b hb
    by_cases h : jsTrim s = ""
    · simp [handleSearchBody, h] at hb
    · simp [handleSearchBody, h] at hb
      subst hb
      rfl
  · intro s b hb
    by_cases h : jsTrim s = ""
    · simp [performSearchBody, h] at hb
    · simp [performSearchBody, h] at hb
      subst hb
      exact ⟨rfl, rfl⟩

/-- C5 amended witness: a concrete handleSearch body carries the empty
context while the concrete performSearch body carries none. -/
theorem C5_amended_context_only_in_handleSearch_witness :
    (∃ b, handleSearchBody "laptop" "u" = some b ∧ b.context = some []) ∧
    (∃ b, performSearchBody "phone" = some b ∧ b.context = none) :=
  ⟨⟨_, rfl, C5_amended_context_only_in_handleSearch.1 "laptop" "u" _ rfl⟩,
   ⟨_, rfl, (C5_amended_context_only_in_handleSearch.2 "phone" _ rfl).1⟩⟩

/-- C6: the three request shapes the UI sends carry exactly the field sets
query, user_id, filters, context (handleSearch), query,
generate_suggestions (suggestion path), and query (performSearch); every
field sent is in the inbound contract and query is always present. -/
theorem C6_bodies_match_contract :
    (∀ s u b, handleSearchBody s u = some b →
      b.fieldNames = ["query", "user_id", "filters", "context"]) ∧
    (∀ s b, suggestionRequestBody s = some b →
      b.fieldNames = ["query", "generate_suggestions"]) ∧
    (∀ s b, performSearchBody s = some b → b.fieldNames = ["query"]) ∧
    (∀ s u b, (handleSearchBody s u = some b ∨
           suggestionRequestBody s = some b ∨
           performSearchBody s = some b) →
      (∀ f ∈ b.fieldNames, f ∈ contractFields) ∧ "query" ∈ b.fieldNames) := by
  have h1 : ∀ s u b, handleSearchBody s u = some b →
      b.fieldNames = ["query", "user_id", "filters", "context"] := by
    intro s u b hb
    by_cases h : jsTrim s = ""
    · simp [handleSearchBody, h] at hb
    · simp [handleSearchBody, h] at hb
      subst hb; rfl
  have h2 : ∀ s b, suggestionRequestBody s = some b →
      b.fieldNames = ["query", "generate_suggestions"] := by
    intro s b hb
    by_cases h : (jsTrim s).length < 2
    · simp [suggestionRequestBody, h] at hb
    · simp [suggestionRequestBody, h] at hb
      subst hb; rfl
  have h3 : ∀ s b, performSearchBody s = some b → b.fieldNames = ["query"] := by
    intro s b hb
    by_cases h : jsTrim s = ""
    · simp [performSearchBody, h] at hb
    · simp [performSearchBody, h] at hb
      subst hb; rfl
  refine ⟨h1, h2, h3, ?_⟩
  intro s u b hb
  rcases hb with hb | hb | hb
  · rw [h1 s u b hb]; exact ⟨by decide, by decide⟩
  · rw [h2 s b hb]; exact ⟨by decide, by decide⟩
  · rw [h3 s b hb]; exact ⟨by decide, by decide⟩

/-- C6 witness: the concrete bodies for the query laptop have exactly the
contract field sets. -/
theorem C6_bodies_match_contract_witness :
    (∃ b, handleSearchBody "laptop" "u1" = some b ∧
      b.fieldNames = ["query", "user_id", "filters", "context"]) ∧
    (∃ b, suggestionRequestBody "laptop" = some b ∧
      b.fieldNames = ["query", "generate_suggestions"]) ∧
    (∃ b, performSearchBody "laptop" = some b ∧ b.fieldNames = ["query"]) :=
  ⟨⟨_, rfl, C6_bodies_match_contract.1 "laptop" "u1" _ rfl⟩,
   ⟨_, rfl, C6_bodies_match_contract.2.1 "laptop" _ rfl⟩,
   ⟨_, rfl, C6_bodies_match_contract.2.2.1 "laptop" _ rfl⟩⟩

set_option maxRecDepth 20000 in
/-- C8 counterexample: two products that agree on every contract field (id,
name, description, price, category, attributes) but differ in rating and
reviews_count render differently under the performSearch renderer, so the
rendered output depends on product fields outside the outbound response
contract. -/
theorem C8_renderer_reads_rating_outside_contract :
    productContractEq productA productB ∧
    renderPerformProduct productA ≠ renderPerformProduct productB := by
  constructor
  · exact ⟨rfl, rfl, rfl, rfl, rfl, rfl⟩
  · decide

/-- C8 amended: createProductCard depends only on the contract fields (two
products equal on the contract render identically for any explanation), but
the performSearch inline renderer additionally reads rating and
reviews_count: its output is determined by the contract fields only
together with those two extra fields. -/
theorem C8_amended_renderers_read_contract_plus_rating_reviews :
    (∀ p q e, productContractEq p q →
      createProductCard (p, e) = createProductCard (q, e)) ∧
    (∀ p q, productContractEq p q → p.rating = q.rating →
      p.reviews_count = q.reviews_count →
      renderPerformProduct p = renderPerformProduct q) := by
  constructor
  · rintro ⟨i1, n1, de1, p1, c1, a1, r1, v1⟩ ⟨i2, n2, de2, p2, c2, a2, r2, v2⟩ e
      ⟨h1, h2, h3, h4, h5, h6⟩
    cases h1; cases h2; cases h3; cases h4; cases h5; cases h6
    rfl
  · rintro ⟨i1, n1, de1, p1, c1, a1, r1, v1⟩ ⟨i2, n2, de2, p2, c2, a2, r2, v2⟩
      ⟨h1, h2, h3, h4, h5, h6⟩ h7 h8
    cases h1; cases h2; cases h3; cases h4; cases h5; cases h6
    cases h7; cases h8
    rfl

/-- C8 amended witness: the card renderer ignores the rating and review
count, so the two concrete products render to the same card. -/
theorem C8_amended_renderers_read_contract_plus_rating_reviews_witness :
    productContractEq productA productB ∧
    createProductCard (productA, none) = createProductCard (productB, none) :=
  ⟨⟨rfl, rfl, rfl, rfl, rfl, rfl⟩,
   C8_amended_renderers_read_contract_plus_rating_reviews.1 productA productB none
     ⟨rfl, rfl, rfl, rfl, rfl, rfl⟩⟩

/-- C9: for a non-empty suggestions array, displaySuggestions leaves the
page suggestionsList element untouched (the parameter of that name shadows
the element binding, so the innerHTML write lands on the array), changes no
element except the suggestions container, whose change is exactly the
removal of the hidden class, throws nothing, and the string the shadowed
assignment computes is placed on the array argument. -/
theorem C9_displaySuggestions_writes_array_not_page :
    ∀ (suggestionsList : List String) (d : Dom), suggestionsList ≠ [] →
      (displaySuggestions suggestionsList d).1.1 "suggestionsList" = d "suggestionsList" ∧
      (∀ id, id ≠ "suggestions" → (displaySuggestions suggestionsList d).1.1 id = d id) ∧
      (displaySuggestions suggestionsList d).1.1 "suggestions" =
        removeClass "hidden" (d "suggestions") ∧
      (displaySuggestions suggestionsList d).1.2 = none ∧
      (displaySuggestions suggestionsList d).2 =
        some (String.join (suggestionsList.map createSuggestionTag)) := by
  intro l d hl
  have hlen : ¬ l.length = 0 := by simpa using hl
  unfold displaySuggestions
  simp only [hlen, if_neg, refSet, getElementById, domIds]
  refine ⟨?_, ?_, ?_, ?_, ?_⟩
  · simp [domUpdate]
  · intro id hid
    simp [domUpdate_apply_ne hid]
  · simp [domUpdate_apply_self]
  · simp
  · simp

/-- C9 witness: a concrete one-element suggestions array leaves the page
list element exactly as it was. -/
theorem C9_displaySuggestions_writes_array_not_page_witness :
    (["phones"] : List String) ≠ [] ∧
    (displaySuggestions ["phones"] emptyDom).1.1 "suggestionsList" = emptyDom "suggestionsList" :=
  ⟨by decide,
   (C9_displaySuggestions_writes_array_not_page ["phones"] emptyDom (by decide)).1⟩

/-- C10 counterexample: when the stored userId value is the empty string the
key is present, yet getUserId does not return the stored value and does
modify storage (JS truthiness treats the empty string as absent), refuting
the unconditional stored-value clause of the claim. -/
theorem C10_empty_stored_value_regenerated :
    (getUserId (some "") ['a']).1 ≠ "" ∧
    (getUserId (some "") ['a']).2 ≠ some "" := by
  constructor <;> decide

/-- C10 amended: getUserId is idempotent with respect to localStorage with
the stored-value clause restricted to nonempty stored values: with nothing
stored it generates user_ followed by at most nine base-36 characters and
stores it; a nonempty stored value is returned with storage untouched; and
any second call returns the first call identifier and leaves storage
exactly as the first call left it. -/
theorem C10_amended_getUserId_idempotent :
    ∀ store digits digits2,
      (store = none →
        (getUserId store digits).1 = "user_" ++ String.mk (digits.take 9) ∧
        (getUserId store digits).2 = some (getUserId store digits).1 ∧
        (digits.take 9).length ≤ 9 ∧
        ((∀ c ∈ digits, isBase36 c) → ∀ c ∈ digits.take 9, isBase36 c)) ∧
      (∀ v, store = some v → v ≠ "" → getUserId store digits = (v, store)) ∧
      ((getUserId (getUserId store digits).2 digits2).1 = (getUserId store digits).1 ∧
       (getUserId (getUserId store digits).2 digits2).2 = (getUserId store digits).2) := by
  intro store digits digits2
  have huser : ∀ x : String, ("user_" ++ x) ≠ "" := by
    intro x h
    have hd := congrArg String.data h
    simp [String.data_append] at hd
  refine ⟨?_, ?_, ?_⟩
  · intro hst
    subst hst
    refine ⟨rfl, rfl, by simp [List.length_take], ?_⟩
    intro hall c hc
    exact hall c (List.mem_of_mem_take hc)
  · intro v hst hv
    subst hst
    simp [getUserId, hv]
  · cases store with
    | none =>
      simp only [getUserId, Option.getD]
      simp [huser]
    | some v =>
      by_cases hv : v = ""
      · subst hv
        simp [getUserId, huser]
      · simp [getUserId, hv]

/-- C10 amended witness: a concrete fresh generation, a concrete nonempty
stored value returned untouched, and a concrete second call agreeing with
the first. -/
theorem C10_amended_getUserId_idempotent_witness :
    (getUserId none ['a', 'b'] ).1 = "user_" ++ String.mk ['a', 'b'] ∧
    getUserId (some "user_q") ['z'] = ("user_q", some "user_q") ∧
    (getUserId (getUserId none ['a', 'b']).2 ['z']).1 = (getUserId none ['a', 'b']).1 :=
  ⟨((C10_amended_getUserId_idempotent none ['a', 'b'] ['z']).1 rfl).1,
   (C10_amended_getUserId_idempotent (some "user_q") ['z'] ['z']).2.1 "user_q" rfl (by decide),
   (C10_amended_getUserId_idempotent none ['a', 'b'] ['z']).2.2.1⟩

end UI
